import Mathlib

/-!
Shallow embedding of the feedback-and-scorecard service
(`src/feedback-and-scorecard/app.py` and `src/feedback-and-scorecard/sales_agent.py`).

The evaluation backend (OpenAI chat model behind langchain, including the
prompt templates of the external `prompts` module and the RAG retrieval of the
feedback node) is an external collaborator; it is modelled as an abstract
function from a criterion id and the formatted transcript to either a raw text
result or a backend error.  Likewise `json.loads` of the Python standard
library is modelled as an abstract parsing function returning `Option Json`.
Firestore is modelled as an explicit key-value state.  Everything written by
the repository itself (transcript formatting, the graph's node set and its
aggregate accumulation, the `split(':',1)`/`strip` result parsing, the
scorecard assembly with `None` markers, the endpoint's cache-then-generate
logic) is translated directly from the source.
-/

/-- Errors a Python run of the core can raise: `KeyError` from a dict lookup,
`IndexError` from `split(':',1)[1]` on an entry without a colon,
`json.JSONDecodeError` from `json.loads`, `ValueError` from an invalid type,
and a backend failure from the evaluation client. -/
inductive PyErr where
  | keyError (key : String)
  | indexError
  | jsonDecodeError
  | valueError (msg : String)
  | evalBackendError (criterion : String)
  deriving DecidableEq, Repr

/-- JSON values, the result domain of `json.loads`. -/
inductive Json where
  | null
  | bool (b : Bool)
  | num (n : Int)
  | str (s : String)
  | arr (elems : List Json)
  | obj (fields : List (String × Json))

/-- A transcript turn: Python dict with keys `role` and `content`. -/
structure Turn where
  role : String
  content : String
  deriving DecidableEq, Repr

/-- The langgraph state (`GraphState` in sales_agent.py): the transcript
string and the aggregate list accumulated by the `add` reducer. -/
structure GraphState where
  transcript : String
  aggregate : List String
  deriving Repr

/-- A node's return value: `return {"aggregate": [result]}` — a delta holding
only an aggregate contribution, never a transcript. -/
structure NodeDelta where
  aggregate : List String
  deriving Repr

/-- Characters stripped by Python's `str.strip()` with no argument. -/
def isPySpace (c : Char) : Bool :=
  c = ' ' || c = '\t' || c = '\n' || c = '\r' || c = Char.ofNat 11 || c = Char.ofNat 12

/-- Python `str.strip()`: drop leading and trailing whitespace. -/
def pyStripList (cs : List Char) : List Char :=
  ((cs.dropWhile isPySpace).reverse.dropWhile isPySpace).reverse

/-- Python `str.strip()` on strings. -/
def pyStrip (s : String) : String :=
  String.mk (pyStripList s.toList)

/-- Split a character list at the first `':'`; `none` when there is no colon
(in which case Python's `split(':',1)[1]` raises `IndexError`). -/
def splitFirstColonAux : List Char → Option (List Char × List Char)
  | [] => none
  | c :: cs =>
    if c = ':' then some ([], cs)
    else (splitFirstColonAux cs).map (fun p => (c :: p.1, p.2))

/-- Python `s.split(':', 1)` restricted to the two-element case. -/
def splitFirstColon (s : String) : Option (String × String) :=
  (splitFirstColonAux s.toList).map (fun p => (String.mk p.1, String.mk p.2))

/-- One step of the dict comprehension
`{item.split(':',1)[0].strip(): item.split(':',1)[1].strip() for item in aggregate}`:
parse a single aggregate entry into a stripped key/value pair. -/
def parseEntry (item : String) : Except PyErr (String × String) :=
  match splitFirstColon item with
  | some (k, v) => .ok (pyStrip k, pyStrip v)
  | none => .error .indexError

/-- Parse every aggregate entry, failing on the first entry without a colon. -/
def aggToPairs : List String → Except PyErr (List (String × String))
  | [] => .ok []
  | item :: rest => do
    let p ← parseEntry item
    let ps ← aggToPairs rest
    .ok (p :: ps)

/-- Python dict lookup on the comprehension result: a later entry with the
same key overwrites an earlier one. -/
def lookupLast : List (String × String) → String → Option String
  | [], _ => none
  | (k', v) :: rest, k =>
    match lookupLast rest k with
    | some v' => some v'
    | none => if k = k' then some v else none

/-- Transcript preprocessing of `generate_scorecard` (app.py lines 74-82):
each system turn overwrites `context`, every other turn is appended to the
conversation as `"role: content"`. -/
def buildContextConversation (transcript : List Turn) : String × List String :=
  transcript.foldl
    (fun acc entry =>
      if entry.role = "system" then (entry.content, acc.2)
      else (acc.1, acc.2 ++ [entry.role ++ ": " ++ entry.content]))
    ("", [])

/-- The formatted transcript handed to the graph (app.py line 85). -/
def formatTranscript (transcript : List Turn) : String :=
  let acc := buildContextConversation transcript
  "Context:\n" ++ acc.1 ++ "\n\nConversation:\n" ++ String.intercalate "\n" acc.2

/-- The evaluation client: one `chain.invoke` call of a node function, taking
the criterion id (standing for that node's prompt template) and the formatted
transcript, returning the raw model output or a backend failure.  Any retries
of the underlying OpenAI client happen inside this single call. -/
def Backend : Type :=
  String → String → Except PyErr String

/-- One node function of sales_agent.py (e.g. `product_knowledge_score`,
lines 70-76): read the transcript from the state, invoke the chain, and
return an aggregate delta holding the single entry `"id: score"`. -/
def nodeRun (backend : Backend) (criterion : String) (state : GraphState) :
    Except PyErr NodeDelta :=
  (backend criterion state.transcript).map
    (fun score => ⟨[criterion ++ ": " ++ score]⟩)

/-- Apply a node's delta to the graph state: the `add` reducer appends to
`aggregate`; `transcript` has no reducer and is left unchanged. -/
def applyDelta (state : GraphState) (delta : NodeDelta) : GraphState :=
  { transcript := state.transcript, aggregate := state.aggregate ++ delta.aggregate }

/-- Run the fan-out nodes of the compiled graph.  Returns the list of
backend invocations made (criterion ids, in order) together with either the
final state or the first node error, which aborts the run. -/
def runNodes (backend : Backend) (state : GraphState) :
    List String → List String × Except PyErr GraphState
  | [] => ([], .ok state)
  | c :: rest =>
    match nodeRun backend c state with
    | .error e => ([c], .error e)
    | .ok delta =>
      let r := runNodes backend (applyDelta state delta) rest
      (c :: r.1, r.2)

/-- The 14 node ids of the sales graph, in `add_node` registration order
(sales_agent.py lines 189-202). -/
def salesNodeIds : List String :=
  ["product_knowledge_score",
   "persuasion_and_negotiation_skills",
   "objection_handling",
   "confidence_score",
   "value_proposition",
   "pitch_quality",
   "call_to_action_effectiveness",
   "questioning_technique",
   "rapport_building",
   "active_listening_skills",
   "upselling_success_rate",
   "engagement",
   "stuttering_words",
   "feedback"]

/-- Modelled from the spec: `customer_agent.py` is not part of the sources,
only its caller (the `customer` branch of `generate_scorecard`) is.  Per the
spec each profile owns a fixed criterion-task set mirrored by the scorecard
schema, so the customer graph's node ids are the criterion ids the customer
branch of app.py reads from its aggregate (lines 96-127). -/
def customerNodeIds : List String :=
  ["empathy_score",
   "clarity_and_conciseness",
   "grammar_and_language",
   "listening_score",
   "positive_sentiment_score",
   "structure_and_flow",
   "stuttering_words",
   "active_listening_skills",
   "problem_resolution_effectiveness",
   "personalisation_index",
   "conflict_management",
   "response_time",
   "customer_satisfaction_score",
   "rapport_building",
   "engagement",
   "feedback"]

/-- Invoke a compiled graph on `{"transcript": formatted}`: a fresh state with
an empty aggregate, then all fan-out nodes. -/
def invokeGraph (ids : List String) (backend : Backend) (transcript : String) :
    List String × Except PyErr GraphState :=
  runNodes backend ⟨transcript, []⟩ ids

/-- Section `communication_and_delivery` of the scorecard. -/
structure CommunicationAndDelivery where
  empathy_score : Option String
  clarity_and_conciseness : Option String
  grammar_and_language : Option String
  listening_score : Option String
  positive_sentiment_score : Option String
  structure_and_flow : Option String
  stuttering_words : Option String
  active_listening_skills : Option String

/-- Section `customer_interaction_and_resolution` of the scorecard. -/
structure CustomerInteractionAndResolution where
  problem_resolution_effectiveness : Option String
  personalisation_index : Option String
  conflict_management : Option String
  response_time : Option String
  customer_satisfaction_score : Option String
  rapport_building : Option String
  engagement : Option String

/-- Section `sales_and_persuasion` of the scorecard. -/
structure SalesAndPersuasion where
  product_knowledge_score : Option String
  persuasion_and_negotiation_skills : Option String
  objection_handling : Option String
  upselling_success_rate : Option String
  call_to_action_effectiveness : Option String
  questioning_technique : Option String

/-- Section `professionalism_and_presentation` of the scorecard. -/
structure ProfessionalismAndPresentation where
  confidence_score : Option String
  value_proposition : Option String
  pitch_quality : Option String

/-- The scorecard returned by `generate_scorecard`: both branches of app.py
build a dict with exactly these four sections, these field names, and a
top-level `feedback`; a field is `none` exactly when the source writes the
Python `None` not-applicable marker. -/
structure Scorecard where
  communication_and_delivery : CommunicationAndDelivery
  customer_interaction_and_resolution : CustomerInteractionAndResolution
  sales_and_persuasion : SalesAndPersuasion
  professionalism_and_presentation : ProfessionalismAndPresentation
  feedback : Json

/-- Python dict subscript `result[key]`: `KeyError` when absent. -/
def getKey (result : String → Option String) (key : String) : Except PyErr String :=
  match result key with
  | some v => .ok v
  | none => .error (.keyError key)

/-- Model of `json.loads`: an abstract parser for the external standard
library, returning `none` where Python raises `json.JSONDecodeError`. -/
def JsonLoads : Type :=
  String → Option Json

/-- Run `json.loads` on a raw string, raising on unparseable input. -/
def jsonLoadsRun (jsonLoads : JsonLoads) (raw : String) : Except PyErr Json :=
  match jsonLoads raw with
  | some j => .ok j
  | none => .error .jsonDecodeError

/-- The customer branch of `generate_scorecard` after the dict comprehension
(app.py lines 94-128): communication and customer-interaction fields are read
from the result dict, both sales sections are the `None` marker, and
`feedback` is `json.loads` of the raw feedback entry. -/
def assembleCustomer (jsonLoads : JsonLoads) (result : String → Option String) :
    Except PyErr Scorecard := do
  let empathy ← getKey result "empathy_score"
  let clarity ← getKey result "clarity_and_conciseness"
  let grammar ← getKey result "grammar_and_language"
  let listening ← getKey result "listening_score"
  let positive ← getKey result "positive_sentiment_score"
  let structFlow ← getKey result "structure_and_flow"
  let stuttering ← getKey result "stuttering_words"
  let activeListening ← getKey result "active_listening_skills"
  let problemRes ← getKey result "problem_resolution_effectiveness"
  let personalisation ← getKey result "personalisation_index"
  let conflict ← getKey result "conflict_management"
  let responseTime ← getKey result "response_time"
  let custSat ← getKey result "customer_satisfaction_score"
  let rapport ← getKey result "rapport_building"
  let engage ← getKey result "engagement"
  let fbRaw ← getKey result "feedback"
  let fb ← jsonLoadsRun jsonLoads fbRaw
  .ok
    { communication_and_delivery :=
        { empathy_score := some empathy
          clarity_and_conciseness := some clarity
          grammar_and_language := some grammar
          listening_score := some listening
          positive_sentiment_score := some positive
          structure_and_flow := some structFlow
          stuttering_words := some stuttering
          active_listening_skills := some activeListening }
      customer_interaction_and_resolution :=
        { problem_resolution_effectiveness := some problemRes
          personalisation_index := some personalisation
          conflict_management := some conflict
          response_time := some responseTime
          customer_satisfaction_score := some custSat
          rapport_building := some rapport
          engagement := some engage }
      sales_and_persuasion :=
        { product_knowledge_score := none
          persuasion_and_negotiation_skills := none
          objection_handling := none
          upselling_success_rate := none
          call_to_action_effectiveness := none
          questioning_technique := none }
      professionalism_and_presentation :=
        { confidence_score := none
          value_proposition := none
          pitch_quality := none }
      feedback := fb }

/-- The sales branch of `generate_scorecard` after the dict comprehension
(app.py lines 137-171): both non-sales sections are the `None` marker, the
sales and professionalism fields are read from the result dict, and
`feedback` is `json.loads` of the raw feedback entry. -/
def assembleSales (jsonLoads : JsonLoads) (result : String → Option String) :
    Except PyErr Scorecard := do
  let productKnowledge ← getKey result "product_knowledge_score"
  let persuasionSkills ← getKey result "persuasion_and_negotiation_skills"
  let objection ← getKey result "objection_handling"
  let upselling ← getKey result "upselling_success_rate"
  let callToAction ← getKey result "call_to_action_effectiveness"
  let questioning ← getKey result "questioning_technique"
  let confidence ← getKey result "confidence_score"
  let valueProp ← getKey result "value_proposition"
  let pitch ← getKey result "pitch_quality"
  let fbRaw ← getKey result "feedback"
  let fb ← jsonLoadsRun jsonLoads fbRaw
  .ok
    { communication_and_delivery :=
        { empathy_score := none
          clarity_and_conciseness := none
          grammar_and_language := none
          listening_score := none
          positive_sentiment_score := none
          structure_and_flow := none
          stuttering_words := none
          active_listening_skills := none }
      customer_interaction_and_resolution :=
        { problem_resolution_effectiveness := none
          personalisation_index := none
          conflict_management := none
          response_time := none
          customer_satisfaction_score := none
          rapport_building := none
          engagement := none }
      sales_and_persuasion :=
        { product_knowledge_score := some productKnowledge
          persuasion_and_negotiation_skills := some persuasionSkills
          objection_handling := some objection
          upselling_success_rate := some upselling
          call_to_action_effectiveness := some callToAction
          questioning_technique := some questioning }
      professionalism_and_presentation :=
        { confidence_score := some confidence
          value_proposition := some valueProp
          pitch_quality := some pitch }
      feedback := fb }

/-- From a graph result to a customer scorecard: dict comprehension over the
aggregate (app.py line 92), then the customer dict literal. -/
def scorecardOfCustomerAggregate (jsonLoads : JsonLoads) (aggregate : List String) :
    Except PyErr Scorecard := do
  let pairs ← aggToPairs aggregate
  assembleCustomer jsonLoads (lookupLast pairs)

/-- From a graph result to a sales scorecard: dict comprehension over the
aggregate (app.py line 135), then the sales dict literal. -/
def scorecardOfSalesAggregate (jsonLoads : JsonLoads) (aggregate : List String) :
    Except PyErr Scorecard := do
  let pairs ← aggToPairs aggregate
  assembleSales jsonLoads (lookupLast pairs)

/-- The `generate_scorecard` function (app.py lines 68-173): format the
transcript, invoke the profile's graph, parse the aggregate, assemble the
scorecard.  Returns the backend invocations made together with the scorecard
or the first raised error. -/
def generate_scorecard (jsonLoads : JsonLoads) (backend : Backend)
    (transcript : List Turn) (type : String) :
    List String × Except PyErr Scorecard :=
  let formatted := formatTranscript transcript
  if type = "customer" then
    let r := invokeGraph customerNodeIds backend formatted
    (r.1, r.2.bind (fun st => scorecardOfCustomerAggregate jsonLoads st.aggregate))
  else if type = "sales" then
    let r := invokeGraph salesNodeIds backend formatted
    (r.1, r.2.bind (fun st => scorecardOfSalesAggregate jsonLoads st.aggregate))
  else
    ([], .error (.valueError "Invalid type provided"))

/-- Firestore as seen by the endpoint: the `feedback` collection caching
scorecards by room id and the `Transcription` collection holding the
transcript and its type. -/
structure Db where
  feedback : String → Option Scorecard
  transcription : String → Option (List Turn × String)

/-- The endpoint's response: a scorecard, the literal `Invalid type` error
dict, or an HTTP error (the 404 raised for a missing transcription is caught
by the surrounding `except Exception` and re-raised as a 500, as is every
error escaping `generate_scorecard`). -/
inductive Response where
  | ok (scorecard : Scorecard)
  | errorInvalidType
  | httpError (code : Nat) (cause : Option PyErr)

/-- The `/get_scorecard` endpoint (`get_transcription`, app.py lines
176-218): return the cached feedback when present; otherwise load the
transcription, generate the scorecard, store it, and return it.  Returns the
response, the resulting database state, and the backend invocations made. -/
def get_transcription (jsonLoads : JsonLoads) (backend : Backend)
    (db : Db) (roomId : String) : Response × Db × List String :=
  match db.feedback roomId with
  | some fb => (.ok fb, db, [])
  | none =>
    match db.transcription roomId with
    | some td =>
      if td.2 = "customer" ∨ td.2 = "sales" then
        let r := generate_scorecard jsonLoads backend td.1 td.2
        match r.2 with
        | .ok sc =>
          (.ok sc,
           { db with feedback := fun id => if id = roomId then some sc else db.feedback id },
           r.1)
        | .error e => (.httpError 500 (some e), db, r.1)
      else (.errorInvalidType, db, [])
    | none => (.httpError 500 none, db, [])

/-- The raw model output the backend returns for a criterion on a given
transcript, canonically extracted (arbitrary on failure). -/
def scoreOf (backend : Backend) (transcript : String) (criterion : String) : String :=
  match backend criterion transcript with
  | .ok s => s
  | .error _ => ""

/-- The key/value pair a parseable aggregate entry denotes (arbitrary for an
entry without a colon). -/
def parseEntryD (s : String) : String × String :=
  ((parseEntry s).toOption).getD ("", "")

/-- A concrete `json.loads` stand-in for witnesses: every raw string parses
to the corresponding JSON string value. -/
def wJson : JsonLoads := fun s => some (.str s)

/-- A concrete always-succeeding backend for witnesses: every criterion
evaluates to the raw text `5`. -/
def wBackend : Backend := fun _ _ => .ok "5"

/-- A backend in which exactly one criterion (`stuttering_words`) fails with
a backend error while all other criteria evaluate to `5`. -/
def failBackend : Backend := fun c _ =>
  if c = "stuttering_words" then .error (.evalBackendError "stuttering_words")
  else .ok "5"

/-- A two-turn witness transcript: one system turn, one user turn. -/
def wTurns : List Turn := [⟨"system", "ctx"⟩, ⟨"user", "hi"⟩]

/-- The aggregate the sales graph produces under `wBackend`. -/
def wAgg : List String :=
  ["product_knowledge_score: 5",
   "persuasion_and_negotiation_skills: 5",
   "objection_handling: 5",
   "confidence_score: 5",
   "value_proposition: 5",
   "pitch_quality: 5",
   "call_to_action_effectiveness: 5",
   "questioning_technique: 5",
   "rapport_building: 5",
   "active_listening_skills: 5",
   "upselling_success_rate: 5",
   "engagement: 5",
   "stuttering_words: 5",
   "feedback: 5"]

/-- The scorecard produced for `wTurns` by `wBackend` under `wJson` on the
sales profile. -/
def wSc : Scorecard :=
  { communication_and_delivery :=
      { empathy_score := none
        clarity_and_conciseness := none
        grammar_and_language := none
        listening_score := none
        positive_sentiment_score := none
        structure_and_flow := none
        stuttering_words := none
        active_listening_skills := none }
    customer_interaction_and_resolution :=
      { problem_resolution_effectiveness := none
        personalisation_index := none
        conflict_management := none
        response_time := none
        customer_satisfaction_score := none
        rapport_building := none
        engagement := none }
    sales_and_persuasion :=
      { product_knowledge_score := some "5"
        persuasion_and_negotiation_skills := some "5"
        objection_handling := some "5"
        upselling_success_rate := some "5"
        call_to_action_effectiveness := some "5"
        questioning_technique := some "5" }
    professionalism_and_presentation :=
      { confidence_score := some "5"
        value_proposition := some "5"
        pitch_quality := some "5" }
    feedback := .str "5" }

/-- A witness database: no cached feedback, one stored sales transcription
under room id `room1`. -/
def wDb : Db :=
  { feedback := fun _ => none
    transcription := fun r => if r = "room1" then some (wTurns, "sales") else none }

/-- The database state after the first `/get_scorecard` call on `room1`:
the generated scorecard is cached. -/
def wDb2 : Db :=
  { wDb with feedback := fun id => if id = "room1" then some wSc else wDb.feedback id }

/-!  Helper lemmas about the embedding, shared by the claim proofs. -/

theorem pyStripList_space_cons (cs : List Char) :
    pyStripList (' ' :: cs) = pyStripList cs := by
  simp [pyStripList, List.dropWhile_cons_of_pos, isPySpace]

theorem pyStrip_mk_space_cons (cs : List Char) :
    pyStrip (String.mk (' ' :: cs)) = pyStrip (String.mk cs) := by
  simp [pyStrip, pyStripList_space_cons]

theorem splitFirstColonAux_append {k : List Char} (hk : ':' ∉ k) (r : List Char) :
    splitFirstColonAux (k ++ ':' :: r) = some (k, r) := by
  induction k with
  | nil => simp [splitFirstColonAux]
  | cons c cs ih =>
    have hc : ¬(c = ':') := by
      intro h; exact hk (by simp [h])
    have hcs : ':' ∉ cs := fun h => hk (List.mem_cons_of_mem _ h)
    simp [splitFirstColonAux, hc, ih hcs]

theorem parseEntry_label {c : String} (hc : ':' ∉ c.toList) (s : String) :
    parseEntry (c ++ ": " ++ s) = .ok (pyStrip c, pyStrip s) := by
  have hdata : (c ++ ": " ++ s).toList = c.toList ++ ':' :: (' ' :: s.toList) := by
    show (c ++ ": " ++ s).data = c.data ++ ':' :: (' ' :: s.data)
    simp [String.data_append]
  have haux : splitFirstColonAux ((c ++ ": " ++ s).toList) =
      some (c.toList, ' ' :: s.toList) := by
    rw [hdata]
    exact splitFirstColonAux_append hc _
  have hsplit : splitFirstColon (c ++ ": " ++ s) =
      some (String.mk c.toList, String.mk (' ' :: s.toList)) := by
    unfold splitFirstColon
    rw [haux]
    rfl
  have h2 : pyStrip (String.mk (' ' :: s.toList)) = pyStrip s := by
    rw [pyStrip_mk_space_cons]
    rfl
  simp only [parseEntry, hsplit]
  rw [show String.mk c.toList = c from rfl, h2]

theorem aggToPairs_map_entries {ids : List String}
    (h : ∀ c ∈ ids, ':' ∉ c.toList) (f : String → String) :
    aggToPairs (ids.map (fun c => c ++ ": " ++ f c)) =
      .ok (ids.map (fun c => (pyStrip c, pyStrip (f c)))) := by
  induction ids with
  | nil => simp [aggToPairs]
  | cons c rest ih =>
    have hc : ':' ∉ c.toList := h c (List.mem_cons_self c rest)
    have hrest : ∀ x ∈ rest, ':' ∉ x.toList := fun x hx => h x (List.mem_cons_of_mem _ hx)
    simp [aggToPairs, parseEntry_label hc, ih hrest, Bind.bind, Except.bind]

theorem runNodes_ok_of {backend : Backend} {ids : List String} {score : String → String}
    (st : GraphState)
    (h : ∀ c ∈ ids, backend c st.transcript = .ok (score c)) :
    runNodes backend st ids =
      (ids, .ok ⟨st.transcript, st.aggregate ++ ids.map (fun c => c ++ ": " ++ score c)⟩) := by
  induction ids generalizing st with
  | nil => simp [runNodes]
  | cons c rest ih =>
    have hc : backend c st.transcript = .ok (score c) := h c (List.mem_cons_self c rest)
    have ihst := ih ⟨st.transcript, st.aggregate ++ [c ++ ": " ++ score c]⟩ (by
      intro x hx
      exact h x (List.mem_cons_of_mem _ hx))
    simp [runNodes, nodeRun, hc, Except.map, applyDelta, ihst, List.append_assoc]

theorem runNodes_ok_inv {backend : Backend} {ids : List String}
    {st₀ st : GraphState} {calls : List String}
    (h : runNodes backend st₀ ids = (calls, .ok st)) :
    st.transcript = st₀.transcript ∧
    st.aggregate =
      st₀.aggregate ++ ids.map (fun c => c ++ ": " ++ scoreOf backend st₀.transcript c) ∧
    ∀ c ∈ ids, backend c st₀.transcript = .ok (scoreOf backend st₀.transcript c) := by
  induction ids generalizing st₀ calls with
  | nil =>
    simp [runNodes] at h
    simp [← h.2]
  | cons c rest ih =>
    rcases hb : backend c st₀.transcript with e | s
    · simp [runNodes, nodeRun, hb, Except.map] at h
    · have hsc : scoreOf backend st₀.transcript c = s := by
        simp [scoreOf, hb]
      simp [runNodes, nodeRun, hb, Except.map] at h
      have hrun : runNodes backend (applyDelta st₀ ⟨[c ++ ": " ++ s]⟩) rest =
          ((runNodes backend (applyDelta st₀ ⟨[c ++ ": " ++ s]⟩) rest).1, .ok st) := by
        rw [← h.2]
      obtain ⟨ht, ha, hall⟩ := ih hrun
      refine ⟨by simpa [applyDelta] using ht, ?_, ?_⟩
      · rw [ha]
        simp [applyDelta, hsc]
      · intro x hx
        rcases List.mem_cons.mp hx with hxc | hxr
        · rw [hxc, hb, hsc]
        · simpa [applyDelta] using hall x hxr

theorem runNodes_calls_sublist (backend : Backend) (st : GraphState) (ids : List String) :
    ((runNodes backend st ids).1).Sublist ids := by
  induction ids generalizing st with
  | nil => simp [runNodes]
  | cons c rest ih =>
    rcases hb : backend c st.transcript with e | s
    · simp [runNodes, nodeRun, hb, Except.map]
    · simpa [runNodes, nodeRun, hb, Except.map] using
        (ih (applyDelta st ⟨[c ++ ": " ++ s]⟩)).cons₂ c

theorem runNodes_calls_head (backend : Backend) (st : GraphState)
    (c : String) (rest : List String) :
    ((runNodes backend st (c :: rest)).1).head? = some c := by
  rcases hb : backend c st.transcript with e | s
  · simp [runNodes, nodeRun, hb, Except.map]
  · simp [runNodes, nodeRun, hb, Except.map]

theorem lookupLast_eq_none_iff (l : List (String × String)) (k : String) :
    lookupLast l k = none ↔ k ∉ l.map Prod.fst := by
  induction l with
  | nil => simp [lookupLast]
  | cons p rest ih =>
    obtain ⟨k', v⟩ := p
    rcases hr : lookupLast rest k with _ | v'
    · have hk : k ∉ rest.map Prod.fst := (ih).mp hr
      by_cases hkk : k = k'
      · subst hkk
        simp [lookupLast, hr]
      · simp [lookupLast, hr, hkk, hk]
    · have hk : k ∈ rest.map Prod.fst := by
        by_contra hnk
        rw [ih.mpr hnk] at hr
        exact Option.noConfusion hr
      simp [lookupLast, hr, hk]

theorem lookupLast_eq_some_iff :
    ∀ {l : List (String × String)}, (l.map Prod.fst).Nodup →
      ∀ (k v : String), (lookupLast l k = some v ↔ (k, v) ∈ l) := by
  intro l
  induction l with
  | nil =>
    intro _ k v
    simp [lookupLast]
  | cons p rest ih =>
    intro hnd k v
    obtain ⟨k', v'⟩ := p
    have hnd' : (rest.map Prod.fst).Nodup := (List.nodup_cons.mp hnd).2
    have hk' : k' ∉ rest.map Prod.fst := (List.nodup_cons.mp hnd).1
    rcases hr : lookupLast rest k with _ | v''
    · have hknr : k ∉ rest.map Prod.fst := (lookupLast_eq_none_iff rest k).mp hr
      have hmr : (k, v) ∉ rest := fun hm =>
        hknr (List.mem_map.mpr ⟨(k, v), hm, rfl⟩)
      by_cases hkk : k = k'
      · subst hkk
        simp [lookupLast, hr, hmr, Prod.ext_iff, eq_comm]
      · simp [lookupLast, hr, hkk, hmr, Prod.ext_iff]
    · have hkr : k ∈ rest.map Prod.fst := by
        by_contra hnk
        rw [(lookupLast_eq_none_iff rest k).mpr hnk] at hr
        exact Option.noConfusion hr
      have hkk : ¬(k = k') := fun h => hk' (h ▸ hkr)
      have hiff := ih hnd' k v
      have hiff' : (v'' = v) ↔ (k, v) ∈ rest := by
        rw [← hiff, hr]
        simp
      simp [lookupLast, hr, Prod.ext_iff, hkk, hiff']

theorem lookupLast_perm {l₁ l₂ : List (String × String)}
    (hp : l₁.Perm l₂) (hnd : (l₁.map Prod.fst).Nodup) :
    lookupLast l₁ = lookupLast l₂ := by
  have hnd₂ : (l₂.map Prod.fst).Nodup :=
    ((hp.map Prod.fst).nodup_iff).mp hnd
  funext k
  rcases h1 : lookupLast l₁ k with _ | v
  · have hk : k ∉ l₁.map Prod.fst := (lookupLast_eq_none_iff l₁ k).mp h1
    have hk₂ : k ∉ l₂.map Prod.fst := fun h => hk ((hp.map Prod.fst).mem_iff.mpr h)
    exact ((lookupLast_eq_none_iff l₂ k).mpr hk₂).symm
  · have hm : (k, v) ∈ l₁ := (lookupLast_eq_some_iff hnd k v).mp h1
    have hm₂ : (k, v) ∈ l₂ := hp.mem_iff.mp hm
    exact ((lookupLast_eq_some_iff hnd₂ k v).mpr hm₂).symm

theorem lookupLast_map_of_nodup {ids : List String} (g : String → String)
    (hnd : ids.Nodup) {k : String} (hk : k ∈ ids) :
    lookupLast (ids.map (fun c => (c, g c))) k = some (g k) := by
  have hnd' : ((ids.map (fun c => (c, g c))).map Prod.fst).Nodup := by
    simpa [List.map_map, Function.comp_def] using hnd
  exact (lookupLast_eq_some_iff hnd' k (g k)).mpr
    (List.mem_map.mpr ⟨k, hk, rfl⟩)

theorem buildContextConversation_foldl (t : List Turn) :
    ∀ (ctx : String) (conv : List String),
      t.foldl
        (fun acc entry =>
          if entry.role = "system" then (entry.content, acc.2)
          else (acc.1, acc.2 ++ [entry.role ++ ": " ++ entry.content]))
        (ctx, conv) =
      (((t.filter (fun e => e.role == "system")).map Turn.content).getLastD ctx,
       conv ++ (t.filter (fun e => !(e.role == "system"))).map
         (fun e => e.role ++ ": " ++ e.content)) := by
  induction t with
  | nil =>
    intro ctx conv
    simp
  | cons e rest ih =>
    intro ctx conv
    by_cases h : e.role = "system"
    · have hfc : List.filter (fun e => e.role == "system") (e :: rest) =
          e :: List.filter (fun e => e.role == "system") rest := by
        simp [List.filter_cons, h]
      have hfc2 : List.filter (fun e => !(e.role == "system")) (e :: rest) =
          List.filter (fun e => !(e.role == "system")) rest := by
        simp [List.filter_cons, h]
      simp only [List.foldl_cons, h, if_true, eq_self_iff_true, hfc, hfc2,
        List.map_cons, List.getLastD_cons]
      exact ih e.content conv
    · simp [h, List.filter_cons, ih, List.append_assoc]

theorem buildContextConversation_eq (t : List Turn) :
    buildContextConversation t =
      (((t.filter (fun e => e.role == "system")).map Turn.content).getLastD "",
       (t.filter (fun e => !(e.role == "system"))).map
         (fun e => e.role ++ ": " ++ e.content)) := by
  unfold buildContextConversation
  simpa using buildContextConversation_foldl t "" []

/-!  Claim theorems. -/

/-- C6 (counterexample): the claim says the context of the formatted prompt
is supplied by the first system turn.  On a transcript with two system turns
(contents `A` then `B`) the code's loop overwrites `context` on every system
entry, so the formatted prompt carries `B`, the last system content — not
`A`. -/
theorem context_from_first_system_refuted :
    formatTranscript [⟨"system", "A"⟩, ⟨"system", "B"⟩, ⟨"user", "hi"⟩] =
      "Context:\nB\n\nConversation:\nuser: hi" ∧
    "Context:\nB\n\nConversation:\nuser: hi" ≠
      "Context:\nA\n\nConversation:\nuser: hi" := by
  constructor
  · rfl
  · decide

/-- C6 (amended): for every transcript the context used to build task prompts
is supplied by the LAST system turn (empty when there is none), and the
conversation body is exactly the non-system turns in their original order,
each rendered as `role: content`; the formatted prompt is
`Context:\n<last system content>\n\nConversation:\n` followed by the joined
non-system turns. -/
theorem formatTranscript_context_last_system (t : List Turn) :
    formatTranscript t =
      "Context:\n" ++
        (((t.filter (fun e => e.role == "system")).map Turn.content).getLastD "") ++
        "\n\nConversation:\n" ++
        String.intercalate "\n"
          ((t.filter (fun e => !(e.role == "system"))).map
            (fun e => e.role ++ ": " ++ e.content)) := by
  unfold formatTranscript
  rw [buildContextConversation_eq]

/-- C9: the transcript is never modified by the evaluation: on any successful
graph run the final state's transcript equals the input transcript, and the
aggregate consists of exactly one appended entry per node — each node's delta
touches only the aggregate.  (In this pure embedding `generate_scorecard`
cannot mutate the transcript list it is handed; the graph-state frame
property proved here is the substantive part.) -/
theorem transcript_unchanged_by_run (backend : Backend) (ids : List String)
    (t : String) (calls : List String) (st : GraphState)
    (h : invokeGraph ids backend t = (calls, .ok st)) :
    st.transcript = t ∧
    st.aggregate = ids.map (fun c => c ++ ": " ++ scoreOf backend t c) := by
  obtain ⟨h1, h2, -⟩ :=
    runNodes_ok_inv (show runNodes backend ⟨t, []⟩ ids = (calls, .ok st) from h)
  exact ⟨h1, by simpa using h2⟩

/-- C8: on every successful sales run the aggregate is complete: parsing it
yields exactly one key per criterion of the profile's fixed task set, in node
order — no duplicate, no missing id — and N = 14. -/
theorem aggregate_complete_on_success (backend : Backend) (t : String)
    (calls : List String) (st : GraphState)
    (h : invokeGraph salesNodeIds backend t = (calls, .ok st)) :
    (aggToPairs st.aggregate).map (fun ps => ps.map Prod.fst) = .ok salesNodeIds ∧
    salesNodeIds.Nodup ∧
    salesNodeIds.length = 14 ∧
    st.aggregate.length = 14 := by
  obtain ⟨-, ha, -⟩ :=
    runNodes_ok_inv (show runNodes backend ⟨t, []⟩ salesNodeIds = (calls, .ok st) from h)
  have hcolon : ∀ c ∈ salesNodeIds, ':' ∉ c.toList := by decide
  have hstrip : ∀ c ∈ salesNodeIds, pyStrip c = c := by decide
  have hpairs := aggToPairs_map_entries hcolon (scoreOf backend t)
  have hkeys :
      (salesNodeIds.map (fun c => (pyStrip c, pyStrip (scoreOf backend t c)))).map Prod.fst =
        salesNodeIds := by
    rw [List.map_map]
    exact (List.map_congr_left (fun c hc => hstrip c hc)).trans (List.map_id _)
  refine ⟨?_, by decide, by decide, ?_⟩
  · rw [ha]
    simp only [List.nil_append, hpairs, Except.map]
    rw [hkeys]
  · rw [ha]
    simp only [List.nil_append, List.length_map]
    decide

/-- C10: the non-empty-transcript precondition is not enforced: for a
transcript consisting solely of system turns (or empty), `generate_scorecard`
does not reject the input — the conversation body is empty, the context is
the last system turn's content, the result is exactly the graph pipeline's
result, and the evaluation graph is still invoked (the first criterion task
is dispatched to the backend). -/
theorem all_system_transcript_not_rejected (jsonLoads : JsonLoads)
    (backend : Backend) (t : List Turn) (h : ∀ e ∈ t, e.role = "system") :
    formatTranscript t =
      "Context:\n" ++ ((t.map Turn.content).getLastD "") ++ "\n\nConversation:\n" ∧
    generate_scorecard jsonLoads backend t "sales" =
      ((invokeGraph salesNodeIds backend (formatTranscript t)).1,
       (invokeGraph salesNodeIds backend (formatTranscript t)).2.bind
         (fun st => scorecardOfSalesAggregate jsonLoads st.aggregate)) ∧
    ((generate_scorecard jsonLoads backend t "sales").1).head? =
      some "product_knowledge_score" := by
  have hfil : t.filter (fun e => e.role == "system") = t := by
    rw [List.filter_eq_self]
    intro e he
    simpa using h e he
  have hfil2 : t.filter (fun e => !(e.role == "system")) = [] := by
    rw [List.filter_eq_nil_iff]
    intro e he
    simpa using h e he
  refine ⟨?_, rfl, ?_⟩
  · unfold formatTranscript
    rw [buildContextConversation_eq, hfil, hfil2]
    simp only [List.map_nil]
    rw [show String.intercalate "\n" ([] : List String) = "" from rfl]
    simp
  · show ((runNodes backend ⟨formatTranscript t, []⟩ salesNodeIds).1).head? = _
    rw [show salesNodeIds = "product_knowledge_score" :: salesNodeIds.tail from rfl]
    exact runNodes_calls_head backend _ _ _

/-- C3 (counterexample): the claim says a criterion task failing with a
transient backend error is retried and, failing still, the run raises a
structured partial-failure error carrying the N−1 completed results and the
failed criterion id.  With a backend failing on exactly one criterion
(`stuttering_words`), the run instead aborts with the bare backend error:
the criterion is invoked exactly once (no orchestrator retry), the remaining
task is never dispatched, and no value carrying a completed subset or a
failed-id list exists — the error constructor carries only the criterion
name and the 12 completed results are discarded. -/
theorem single_failure_no_partial_error :
    generate_scorecard wJson failBackend [⟨"user", "hi"⟩] "sales" =
      (["product_knowledge_score", "persuasion_and_negotiation_skills",
        "objection_handling", "confidence_score", "value_proposition",
        "pitch_quality", "call_to_action_effectiveness", "questioning_technique",
        "rapport_building", "active_listening_skills", "upselling_success_rate",
        "engagement", "stuttering_words"],
       .error (.evalBackendError "stuttering_words")) ∧
    List.count "stuttering_words"
      (generate_scorecard wJson failBackend [⟨"user", "hi"⟩] "sales").1 = 1 := by
  constructor
  · rfl
  · rfl

/-- C3 (amended): a failing criterion task is not retried by the
orchestrator and no partial-failure value is surfaced: on the sales profile
the backend is invoked at most once per criterion (the call list is a
duplicate-free sublist of the node list), and when the graph run fails the
error propagates unchanged as the result of the whole run — no completed
subset is returned and no failed criterion is replaced by a null/default
score. -/
theorem failure_propagates_without_retry (jsonLoads : JsonLoads)
    (backend : Backend) (t : List Turn) :
    ((generate_scorecard jsonLoads backend t "sales").1).Sublist salesNodeIds ∧
    (∀ c, List.count c ((generate_scorecard jsonLoads backend t "sales").1) ≤ 1) ∧
    (∀ e, (invokeGraph salesNodeIds backend (formatTranscript t)).2 = .error e →
      (generate_scorecard jsonLoads backend t "sales").2 = .error e) := by
  have hsub : ((generate_scorecard jsonLoads backend t "sales").1).Sublist salesNodeIds :=
    runNodes_calls_sublist backend ⟨formatTranscript t, []⟩ salesNodeIds
  refine ⟨hsub, ?_, ?_⟩
  · intro c
    exact le_trans (hsub.count_le c)
      (List.nodup_iff_count_le_one.mp (by decide) c)
  · intro e he
    show (invokeGraph salesNodeIds backend (formatTranscript t)).2.bind _ = .error e
    rw [he]
    rfl

/-- C3 (amended, witness): the amended theorem applied to the concrete
one-failing-criterion backend. -/
theorem failure_propagates_witness :
    (generate_scorecard wJson failBackend [⟨"user", "hi"⟩] "sales").2 =
      .error (.evalBackendError "stuttering_words") :=
  (failure_propagates_without_retry wJson failBackend [⟨"user", "hi"⟩]).2.2
    (.evalBackendError "stuttering_words") (by rfl)

/-- C7 (counterexample): the claim says there is no input for which the
result parser silently yields an empty string as a criterion's value.  The
aggregate entry `product_knowledge_score:   ` (blank after the label) parses
without error to the pair `(product_knowledge_score, "")`, and a complete
sales aggregate containing it assembles successfully with the empty string
as the criterion's scorecard value. -/
theorem parser_empty_string_refuted :
    parseEntry "product_knowledge_score:   " = .ok ("product_knowledge_score", "") ∧
    ((scorecardOfSalesAggregate wJson
        ["product_knowledge_score:   ", "persuasion_and_negotiation_skills: 5",
         "objection_handling: 5", "confidence_score: 5", "value_proposition: 5",
         "pitch_quality: 5", "call_to_action_effectiveness: 5",
         "questioning_technique: 5", "rapport_building: 5",
         "active_listening_skills: 5", "upselling_success_rate: 5",
         "engagement: 5", "stuttering_words: 5", "feedback: f"]).map
      (fun sc => sc.sales_and_persuasion.product_knowledge_score)) =
        .ok (some "") := by
  constructor
  · rfl
  · rfl

/-- C7 (amended): the parser strips leading/trailing whitespace from both
the label and the value, and an entry in which no colon-delimited value can
be located fails explicitly with an error; however, a present label whose
following text is blank silently yields the empty string as the criterion's
value rather than failing. -/
theorem parser_whitespace_and_failure (c : String) (hc : ':' ∉ c.toList)
    (s : String) :
    parseEntry (c ++ ": " ++ s) = .ok (pyStrip c, pyStrip s) ∧
    (∀ item, splitFirstColon item = none → parseEntry item = .error .indexError) ∧
    parseEntry (c ++ ": ") = .ok (pyStrip c, "") := by
  refine ⟨parseEntry_label hc s, ?_, ?_⟩
  · intro item hi
    simp [parseEntry, hi]
  · have h := parseEntry_label hc ""
    simpa using h

/-- C7 (amended, witness): whitespace around label and value is stripped, a
colon-less entry raises, and a blank value parses to the empty string. -/
theorem parser_whitespace_witness :
    parseEntry ("empathy_score" ++ ": " ++ " 8 ") = .ok ("empathy_score", "8") ∧
    parseEntry "no colon here" = .error .indexError ∧
    parseEntry ("empathy_score" ++ ": ") = .ok ("empathy_score", "") := by
  obtain ⟨h1, h2, h3⟩ := parser_whitespace_and_failure "empathy_score" (by decide) " 8 "
  exact ⟨by simpa using h1, h2 "no colon here" (by rfl), by simpa using h3⟩

theorem aggToPairs_of_parse {l : List String}
    (h : ∀ s ∈ l, (splitFirstColon s).isSome = true) :
    aggToPairs l = .ok (l.map parseEntryD) := by
  induction l with
  | nil => simp [aggToPairs]
  | cons s rest ih =>
    have hs : (splitFirstColon s).isSome = true := h s (List.mem_cons_self s rest)
    obtain ⟨p, hp⟩ := Option.isSome_iff_exists.mp hs
    obtain ⟨k, v⟩ := p
    have hpe : parseEntry s = .ok (pyStrip k, pyStrip v) := by
      simp [parseEntry, hp]
    have hpd : parseEntryD s = (pyStrip k, pyStrip v) := by
      simp [parseEntryD, hpe, Except.toOption]
    have hrest : ∀ x ∈ rest, (splitFirstColon x).isSome = true :=
      fun x hx => h x (List.mem_cons_of_mem _ hx)
    simp [aggToPairs, hpe, ih hrest, hpd, Bind.bind, Except.bind]

/-- C5: the assembled scorecard is a deterministic function of the set of
completed per-criterion results, independent of arrival order: two aggregate
lists that are permutations of each other with parseable entries and
pairwise-distinct criterion labels produce identical scorecards on both
profiles. -/
theorem scorecard_order_independent (jsonLoads : JsonLoads)
    (l₁ l₂ : List String) (hperm : l₁.Perm l₂)
    (hparse : ∀ s ∈ l₁, (splitFirstColon s).isSome = true)
    (hnd : ((l₁.map parseEntryD).map Prod.fst).Nodup) :
    scorecardOfCustomerAggregate jsonLoads l₁ =
      scorecardOfCustomerAggregate jsonLoads l₂ ∧
    scorecardOfSalesAggregate jsonLoads l₁ =
      scorecardOfSalesAggregate jsonLoads l₂ := by
  have hparse₂ : ∀ s ∈ l₂, (splitFirstColon s).isSome = true := fun s hs =>
    hparse s (hperm.mem_iff.mpr hs)
  have h₁ := aggToPairs_of_parse hparse
  have h₂ := aggToPairs_of_parse hparse₂
  have hpermP : (l₁.map parseEntryD).Perm (l₂.map parseEntryD) := hperm.map _
  have hlook : lookupLast (l₁.map parseEntryD) = lookupLast (l₂.map parseEntryD) :=
    lookupLast_perm hpermP hnd
  constructor
  · simp [scorecardOfCustomerAggregate, h₁, h₂, hlook, Bind.bind, Except.bind]
  · simp [scorecardOfSalesAggregate, h₁, h₂, hlook, Bind.bind, Except.bind]

/-- C5 (witness): two permuted two-entry aggregates with distinct labels
yield identical scorecards. -/
theorem scorecard_order_independent_witness :
    scorecardOfCustomerAggregate wJson ["a: 1", "b: 2"] =
      scorecardOfCustomerAggregate wJson ["b: 2", "a: 1"] ∧
    scorecardOfSalesAggregate wJson ["a: 1", "b: 2"] =
      scorecardOfSalesAggregate wJson ["b: 2", "a: 1"] :=
  scorecard_order_independent wJson ["a: 1", "b: 2"] ["b: 2", "a: 1"]
    (by decide) (by decide) (by decide)

/-- C1: for both profiles, assembling a complete mapping of criterion
results yields a scorecard (the output shape — sections and field names —
is the single `Scorecard` type for both profiles, mirroring the identical
key sets of the two dict literals in app.py) in which every field of the
other profile's sections is the explicit `none` marker and every field of
the active profile's sections equals the corresponding input value exactly;
the top-level feedback is the parsed JSON of the raw feedback entry. -/
theorem assembly_profile_fields (jsonLoads : JsonLoads) :
    (∀ (result : String → Option String) (fbRaw : String) (j : Json),
      (∀ c ∈ customerNodeIds, (result c).isSome = true) →
      result "feedback" = some fbRaw → jsonLoads fbRaw = some j →
      assembleCustomer jsonLoads result = .ok
        { communication_and_delivery :=
            { empathy_score := result "empathy_score"
              clarity_and_conciseness := result "clarity_and_conciseness"
              grammar_and_language := result "grammar_and_language"
              listening_score := result "listening_score"
              positive_sentiment_score := result "positive_sentiment_score"
              structure_and_flow := result "structure_and_flow"
              stuttering_words := result "stuttering_words"
              active_listening_skills := result "active_listening_skills" }
          customer_interaction_and_resolution :=
            { problem_resolution_effectiveness := result "problem_resolution_effectiveness"
              personalisation_index := result "personalisation_index"
              conflict_management := result "conflict_management"
              response_time := result "response_time"
              customer_satisfaction_score := result "customer_satisfaction_score"
              rapport_building := result "rapport_building"
              engagement := result "engagement" }
          sales_and_persuasion :=
            { product_knowledge_score := none
              persuasion_and_negotiation_skills := none
              objection_handling := none
              upselling_success_rate := none
              call_to_action_effectiveness := none
              questioning_technique := none }
          professionalism_and_presentation :=
            { confidence_score := none
              value_proposition := none
              pitch_quality := none }
          feedback := j }) ∧
    (∀ (result : String → Option String) (fbRaw : String) (j : Json),
      (∀ c ∈ salesNodeIds, (result c).isSome = true) →
      result "feedback" = some fbRaw → jsonLoads fbRaw = some j →
      assembleSales jsonLoads result = .ok
        { communication_and_delivery :=
            { empathy_score := none
              clarity_and_conciseness := none
              grammar_and_language := none
              listening_score := none
              positive_sentiment_score := none
              structure_and_flow := none
              stuttering_words := none
              active_listening_skills := none }
          customer_interaction_and_resolution :=
            { problem_resolution_effectiveness := none
              personalisation_index := none
              conflict_management := none
              response_time := none
              customer_satisfaction_score := none
              rapport_building := none
              engagement := none }
          sales_and_persuasion :=
            { product_knowledge_score := result "product_knowledge_score"
              persuasion_and_negotiation_skills := result "persuasion_and_negotiation_skills"
              objection_handling := result "objection_handling"
              upselling_success_rate := result "upselling_success_rate"
              call_to_action_effectiveness := result "call_to_action_effectiveness"
              questioning_technique := result "questioning_technique" }
          professionalism_and_presentation :=
            { confidence_score := result "confidence_score"
              value_proposition := result "value_proposition"
              pitch_quality := result "pitch_quality" }
          feedback := j }) := by
  constructor
  · intro result fbRaw j hall hfb hj
    obtain ⟨v1, h1⟩ := Option.isSome_iff_exists.mp (hall "empathy_score" (by decide))
    obtain ⟨v2, h2⟩ := Option.isSome_iff_exists.mp (hall "clarity_and_conciseness" (by decide))
    obtain ⟨v3, h3⟩ := Option.isSome_iff_exists.mp (hall "grammar_and_language" (by decide))
    obtain ⟨v4, h4⟩ := Option.isSome_iff_exists.mp (hall "listening_score" (by decide))
    obtain ⟨v5, h5⟩ := Option.isSome_iff_exists.mp (hall "positive_sentiment_score" (by decide))
    obtain ⟨v6, h6⟩ := Option.isSome_iff_exists.mp (hall "structure_and_flow" (by decide))
    obtain ⟨v7, h7⟩ := Option.isSome_iff_exists.mp (hall "stuttering_words" (by decide))
    obtain ⟨v8, h8⟩ := Option.isSome_iff_exists.mp (hall "active_listening_skills" (by decide))
    obtain ⟨v9, h9⟩ := Option.isSome_iff_exists.mp (hall "problem_resolution_effectiveness" (by decide))
    obtain ⟨v10, h10⟩ := Option.isSome_iff_exists.mp (hall "personalisation_index" (by decide))
    obtain ⟨v11, h11⟩ := Option.isSome_iff_exists.mp (hall "conflict_management" (by decide))
    obtain ⟨v12, h12⟩ := Option.isSome_iff_exists.mp (hall "response_time" (by decide))
    obtain ⟨v13, h13⟩ := Option.isSome_iff_exists.mp (hall "customer_satisfaction_score" (by decide))
    obtain ⟨v14, h14⟩ := Option.isSome_iff_exists.mp (hall "rapport_building" (by decide))
    obtain ⟨v15, h15⟩ := Option.isSome_iff_exists.mp (hall "engagement" (by decide))
    simp [assembleCustomer, getKey, h1, h2, h3, h4, h5, h6, h7, h8, h9, h10,
      h11, h12, h13, h14, h15, hfb, jsonLoadsRun, hj, Bind.bind, Except.bind]
  · intro result fbRaw j hall hfb hj
    obtain ⟨v1, h1⟩ := Option.isSome_iff_exists.mp (hall "product_knowledge_score" (by decide))
    obtain ⟨v2, h2⟩ := Option.isSome_iff_exists.mp (hall "persuasion_and_negotiation_skills" (by decide))
    obtain ⟨v3, h3⟩ := Option.isSome_iff_exists.mp (hall "objection_handling" (by decide))
    obtain ⟨v4, h4⟩ := Option.isSome_iff_exists.mp (hall "upselling_success_rate" (by decide))
    obtain ⟨v5, h5⟩ := Option.isSome_iff_exists.mp (hall "call_to_action_effectiveness" (by decide))
    obtain ⟨v6, h6⟩ := Option.isSome_iff_exists.mp (hall "questioning_technique" (by decide))
    obtain ⟨v7, h7⟩ := Option.isSome_iff_exists.mp (hall "confidence_score" (by decide))
    obtain ⟨v8, h8⟩ := Option.isSome_iff_exists.mp (hall "value_proposition" (by decide))
    obtain ⟨v9, h9⟩ := Option.isSome_iff_exists.mp (hall "pitch_quality" (by decide))
    simp [assembleSales, getKey, h1, h2, h3, h4, h5, h6, h7, h8, h9,
      hfb, jsonLoadsRun, hj, Bind.bind, Except.bind]

/-- C1 (witness): the assembly theorem applied to the constant mapping
sending every criterion to `5`. -/
theorem assembly_profile_fields_witness :
    assembleCustomer wJson (fun _ => some "5") = .ok
      { communication_and_delivery :=
          { empathy_score := some "5", clarity_and_conciseness := some "5"
            grammar_and_language := some "5", listening_score := some "5"
            positive_sentiment_score := some "5", structure_and_flow := some "5"
            stuttering_words := some "5", active_listening_skills := some "5" }
        customer_interaction_and_resolution :=
          { problem_resolution_effectiveness := some "5"
            personalisation_index := some "5", conflict_management := some "5"
            response_time := some "5", customer_satisfaction_score := some "5"
            rapport_building := some "5", engagement := some "5" }
        sales_and_persuasion :=
          { product_knowledge_score := none
            persuasion_and_negotiation_skills := none, objection_handling := none
            upselling_success_rate := none, call_to_action_effectiveness := none
            questioning_technique := none }
        professionalism_and_presentation :=
          { confidence_score := none, value_proposition := none
            pitch_quality := none }
        feedback := .str "5" } ∧
    assembleSales wJson (fun _ => some "5") = .ok
      { communication_and_delivery :=
          { empathy_score := none, clarity_and_conciseness := none
            grammar_and_language := none, listening_score := none
            positive_sentiment_score := none, structure_and_flow := none
            stuttering_words := none, active_listening_skills := none }
        customer_interaction_and_resolution :=
          { problem_resolution_effectiveness := none
            personalisation_index := none, conflict_management := none
            response_time := none, customer_satisfaction_score := none
            rapport_building := none, engagement := none }
        sales_and_persuasion :=
          { product_knowledge_score := some "5"
            persuasion_and_negotiation_skills := some "5"
            objection_handling := some "5", upselling_success_rate := some "5"
            call_to_action_effectiveness := some "5"
            questioning_technique := some "5" }
        professionalism_and_presentation :=
          { confidence_score := some "5", value_proposition := some "5"
            pitch_quality := some "5" }
        feedback := .str "5" } :=
  ⟨(assembly_profile_fields wJson).1 (fun _ => some "5") "5" (.str "5")
      (by decide) rfl rfl,
   (assembly_profile_fields wJson).2 (fun _ => some "5") "5" (.str "5")
      (by decide) rfl rfl⟩

/-- C4: the feedback criterion's output is parsed as structured JSON in the
final scorecard: on a run in which every backend call succeeds, if the
(stripped) raw feedback output is not parseable the whole run fails with the
JSON decode error — a hard error for the entire evaluation, not a recorded
single-criterion failure — and if it is parseable the scorecard's feedback
field is exactly the parsed value. -/
theorem feedback_json_roundtrip (jsonLoads : JsonLoads) (backend : Backend)
    (t : List Turn) (score : String → String)
    (h : ∀ c ∈ salesNodeIds, backend c (formatTranscript t) = .ok (score c)) :
    (jsonLoads (pyStrip (score "feedback")) = none →
      (generate_scorecard jsonLoads backend t "sales").2 = .error .jsonDecodeError) ∧
    (∀ j, jsonLoads (pyStrip (score "feedback")) = some j →
      (generate_scorecard jsonLoads backend t "sales").2 = .ok
        { communication_and_delivery :=
            { empathy_score := none, clarity_and_conciseness := none
              grammar_and_language := none, listening_score := none
              positive_sentiment_score := none, structure_and_flow := none
              stuttering_words := none, active_listening_skills := none }
          customer_interaction_and_resolution :=
            { problem_resolution_effectiveness := none
              personalisation_index := none, conflict_management := none
              response_time := none, customer_satisfaction_score := none
              rapport_building := none, engagement := none }
          sales_and_persuasion :=
            { product_knowledge_score := some (pyStrip (score "product_knowledge_score"))
              persuasion_and_negotiation_skills :=
                some (pyStrip (score "persuasion_and_negotiation_skills"))
              objection_handling := some (pyStrip (score "objection_handling"))
              upselling_success_rate := some (pyStrip (score "upselling_success_rate"))
              call_to_action_effectiveness :=
                some (pyStrip (score "call_to_action_effectiveness"))
              questioning_technique := some (pyStrip (score "questioning_technique")) }
          professionalism_and_presentation :=
            { confidence_score := some (pyStrip (score "confidence_score"))
              value_proposition := some (pyStrip (score "value_proposition"))
              pitch_quality := some (pyStrip (score "pitch_quality")) }
          feedback := j }) := by
  have hrun := runNodes_ok_of ⟨formatTranscript t, []⟩ h
  have hgen : (generate_scorecard jsonLoads backend t "sales").2 =
      scorecardOfSalesAggregate jsonLoads
        (salesNodeIds.map (fun c => c ++ ": " ++ score c)) := by
    show ((invokeGraph salesNodeIds backend (formatTranscript t)).2.bind
      (fun st => scorecardOfSalesAggregate jsonLoads st.aggregate)) = _
    unfold invokeGraph
    rw [hrun]
    rfl
  have hstrip : ∀ c ∈ salesNodeIds, pyStrip c = c := by decide
  have hpairs : aggToPairs (salesNodeIds.map (fun c => c ++ ": " ++ score c)) =
      .ok (salesNodeIds.map (fun c => (c, pyStrip (score c)))) := by
    rw [aggToPairs_map_entries (by decide) score]
    exact congrArg Except.ok
      (List.map_congr_left fun c hc => by rw [hstrip c hc])
  have hnd : salesNodeIds.Nodup := by decide
  have hl := fun (k : String) (hk : k ∈ salesNodeIds) =>
    lookupLast_map_of_nodup (fun c => pyStrip (score c)) hnd hk
  have hl1 := hl "product_knowledge_score" (by decide)
  have hl2 := hl "persuasion_and_negotiation_skills" (by decide)
  have hl3 := hl "objection_handling" (by decide)
  have hl4 := hl "upselling_success_rate" (by decide)
  have hl5 := hl "call_to_action_effectiveness" (by decide)
  have hl6 := hl "questioning_technique" (by decide)
  have hl7 := hl "confidence_score" (by decide)
  have hl8 := hl "value_proposition" (by decide)
  have hl9 := hl "pitch_quality" (by decide)
  have hl10 := hl "feedback" (by decide)
  constructor
  · intro hnone
    rw [hgen]
    simp [scorecardOfSalesAggregate, hpairs, assembleSales, getKey,
      hl1, hl2, hl3, hl4, hl5, hl6, hl7, hl8, hl9, hl10,
      jsonLoadsRun, hnone, Bind.bind, Except.bind]
  · intro j hj
    rw [hgen]
    simp [scorecardOfSalesAggregate, hpairs, assembleSales, getKey,
      hl1, hl2, hl3, hl4, hl5, hl6, hl7, hl8, hl9, hl10,
      jsonLoadsRun, hj, Bind.bind, Except.bind]

/-- C4 (witness): with the always-`5` backend and the string-valued JSON
parser, the run succeeds and the scorecard's feedback equals the parsed
value. -/
theorem feedback_json_roundtrip_witness :
    (generate_scorecard wJson wBackend wTurns "sales").2 = .ok
      { communication_and_delivery :=
          { empathy_score := none, clarity_and_conciseness := none
            grammar_and_language := none, listening_score := none
            positive_sentiment_score := none, structure_and_flow := none
            stuttering_words := none, active_listening_skills := none }
        customer_interaction_and_resolution :=
          { problem_resolution_effectiveness := none
            personalisation_index := none, conflict_management := none
            response_time := none, customer_satisfaction_score := none
            rapport_building := none, engagement := none }
        sales_and_persuasion :=
          { product_knowledge_score := some "5"
            persuasion_and_negotiation_skills := some "5"
            objection_handling := some "5", upselling_success_rate := some "5"
            call_to_action_effectiveness := some "5"
            questioning_technique := some "5" }
        professionalism_and_presentation :=
          { confidence_score := some "5", value_proposition := some "5"
            pitch_quality := some "5" }
        feedback := .str "5" } :=
  (feedback_json_roundtrip wJson wBackend wTurns (fun _ => "5")
      (fun _ _ => rfl)).2 (.str "5") rfl

/-- C9 (witness): the frame theorem applied to a concrete successful run. -/
theorem transcript_unchanged_witness :
    (GraphState.mk "T" wAgg).transcript = "T" ∧
    (GraphState.mk "T" wAgg).aggregate =
      salesNodeIds.map (fun c => c ++ ": " ++ scoreOf wBackend "T" c) :=
  transcript_unchanged_by_run wBackend salesNodeIds "T" salesNodeIds
    ⟨"T", wAgg⟩ (by rfl)

/-- C8 (witness): the completeness theorem applied to a concrete successful
run. -/
theorem aggregate_complete_witness :
    (aggToPairs (GraphState.mk "T" wAgg).aggregate).map
        (fun ps => ps.map Prod.fst) = .ok salesNodeIds ∧
    salesNodeIds.Nodup ∧
    salesNodeIds.length = 14 ∧
    (GraphState.mk "T" wAgg).aggregate.length = 14 :=
  aggregate_complete_on_success wBackend "T" salesNodeIds ⟨"T", wAgg⟩ (by rfl)

/-- C10 (witness): the no-rejection theorem applied to a one-turn all-system
transcript. -/
theorem all_system_transcript_witness :
    formatTranscript [⟨"system", "A"⟩] =
      "Context:\n" ++ (([⟨"system", "A"⟩] : List Turn).map Turn.content).getLastD "" ++
        "\n\nConversation:\n" ∧
    generate_scorecard wJson wBackend [⟨"system", "A"⟩] "sales" =
      ((invokeGraph salesNodeIds wBackend (formatTranscript [⟨"system", "A"⟩])).1,
       (invokeGraph salesNodeIds wBackend (formatTranscript [⟨"system", "A"⟩])).2.bind
         (fun st => scorecardOfSalesAggregate wJson st.aggregate)) ∧
    ((generate_scorecard wJson wBackend [⟨"system", "A"⟩] "sales").1).head? =
      some "product_knowledge_score" :=
  all_system_transcript_not_rejected wJson wBackend [⟨"system", "A"⟩]
    (by decide)

/-- C2: idempotence of the evaluate operation: whenever a `/get_scorecard`
call for a room id returns a scorecard, a second call with the same room id
against the resulting database state returns exactly that scorecard, leaves
the database unchanged, and makes zero backend (Evaluator Client) calls —
the cached feedback document is served without re-running the graph. -/
theorem run_idempotent (jsonLoads : JsonLoads) (backend : Backend) (db : Db)
    (roomId : String) (sc : Scorecard) (db₂ : Db) (calls : List String)
    (h : get_transcription jsonLoads backend db roomId = (.ok sc, db₂, calls)) :
    get_transcription jsonLoads backend db₂ roomId = (.ok sc, db₂, []) := by
  have hfb : db₂.feedback roomId = some sc := by
    unfold get_transcription at h
    split at h
    · rename_i fb hf
      simp only [Prod.mk.injEq, Response.ok.injEq] at h
      obtain ⟨hsc, hdb, -⟩ := h
      rw [← hdb, hf, hsc]
    · rename_i hf
      split at h
      · rename_i td ht
        split at h
        · rename_i hty
          simp only [] at h
          split at h
          · rename_i sc' hg
            simp only [Prod.mk.injEq, Response.ok.injEq] at h
            obtain ⟨hsc, hdb, -⟩ := h
            rw [← hdb]
            simp [hsc]
          · rename_i e hg
            simp at h
        · simp at h
      · rename_i ht
        simp at h
  unfold get_transcription
  rw [hfb]

/-- C2 (witness): the idempotence theorem applied to a concrete first call
that generates and caches a scorecard. -/
theorem run_idempotent_witness :
    get_transcription wJson wBackend wDb2 "room1" = (.ok wSc, wDb2, []) :=
  run_idempotent wJson wBackend wDb "room1" wSc wDb2 salesNodeIds (by rfl)
